import Mathlib

/-!
Verification development for the CerealsHub-Desktop data-durability subsystem:
the versioned schema-migration plan declared in `src-tauri/src/main.rs` and the
relational data model it provisions (users, messages, contacts, auth_tokens,
groups, group_members, group_contacts, group_messages), together with the
`greet` command.

The two migration steps (their versions, descriptions and DDL bodies) are
embedded as structured data directly from the source.  The migration engine
that executes a plan (`tauri_plugin_sql` / SQLite) and the storage engine that
enforces constraints on writes are not part of the repository's sources, so
their behaviour is modelled from the specification.
-/

set_option autoImplicit false

namespace Cereals

/-- A default value attached to a column (`DEFAULT` clause in the source DDL). -/
inductive ColDefault where
  | nothing
  | intv (n : Int)
  | textv (s : String)
  | boolv (b : Bool)
  | nowv
deriving DecidableEq

/-- One column of a table, as declared in the source DDL: name, declared type,
`NOT NULL`, `UNIQUE`, `PRIMARY KEY AUTOINCREMENT`, and `DEFAULT` clause. -/
structure Column where
  name : String
  ty : String
  notNull : Bool
  unique : Bool
  pkAuto : Bool
  dflt : ColDefault
deriving DecidableEq

/-- A `FOREIGN KEY (column) REFERENCES refTable (refColumn)` clause. -/
structure ForeignKey where
  column : String
  refTable : String
  refColumn : String
deriving DecidableEq

/-- A table definition: columns, composite primary key, foreign keys. -/
structure TableDef where
  name : String
  columns : List Column
  primaryKey : List String
  foreignKeys : List ForeignKey
deriving DecidableEq

/-- A DDL statement of a migration body: `CREATE TABLE [IF NOT EXISTS]`, or
`DROP TABLE` (never used by the shipped plan, but part of the statement
language so that "neither step drops any table" is a contentful statement). -/
inductive SqlStmt where
  | createTable (ifNotExists : Bool) (t : TableDef)
  | dropTable (name : String)
deriving DecidableEq

/-- Mirror of `tauri_plugin_sql::MigrationKind`. -/
inductive MigrationKind where
  | up
  | down
deriving DecidableEq

/-- Mirror of `tauri_plugin_sql::Migration`: version, description and the
statements of its SQL body. -/
structure Migration where
  version : Nat
  description : String
  sql : List SqlStmt
  kind : MigrationKind
deriving DecidableEq

/-! ### The entity schema, transcribed from the DDL in `main.rs` -/

/-- `users` table (migration 1 in `main.rs`). -/
def usersTable : TableDef :=
  { name := "users"
    columns :=
      [ { name := "id", ty := "INTEGER", notNull := false, unique := false,
          pkAuto := true, dflt := .nothing }
      , { name := "username", ty := "TEXT", notNull := true, unique := true,
          pkAuto := false, dflt := .nothing }
      , { name := "avatar_url", ty := "TEXT", notNull := false, unique := false,
          pkAuto := false, dflt := .nothing }
      , { name := "status", ty := "TEXT", notNull := false, unique := false,
          pkAuto := false, dflt := .textv "offline" }
      , { name := "created_at", ty := "DATETIME", notNull := false, unique := false,
          pkAuto := false, dflt := .nowv } ]
    primaryKey := ["id"]
    foreignKeys := [] }

/-- `messages` table (migration 1 in `main.rs`). -/
def messagesTable : TableDef :=
  { name := "messages"
    columns :=
      [ { name := "id", ty := "INTEGER", notNull := false, unique := false,
          pkAuto := true, dflt := .nothing }
      , { name := "sender_id", ty := "INTEGER", notNull := true, unique := false,
          pkAuto := false, dflt := .nothing }
      , { name := "receiver_id", ty := "INTEGER", notNull := true, unique := false,
          pkAuto := false, dflt := .nothing }
      , { name := "content", ty := "TEXT", notNull := true, unique := false,
          pkAuto := false, dflt := .nothing }
      , { name := "message_type", ty := "TEXT", notNull := false, unique := false,
          pkAuto := false, dflt := .textv "text" }
      , { name := "timestamp", ty := "DATETIME", notNull := false, unique := false,
          pkAuto := false, dflt := .nowv }
      , { name := "is_read", ty := "BOOLEAN", notNull := false, unique := false,
          pkAuto := false, dflt := .boolv false } ]
    primaryKey := ["id"]
    foreignKeys :=
      [ { column := "sender_id", refTable := "users", refColumn := "id" }
      , { column := "receiver_id", refTable := "users", refColumn := "id" } ] }

/-- `contacts` table (migration 1 in `main.rs`). -/
def contactsTable : TableDef :=
  { name := "contacts"
    columns :=
      [ { name := "user_id", ty := "INTEGER", notNull := true, unique := false,
          pkAuto := false, dflt := .nothing }
      , { name := "contact_id", ty := "INTEGER", notNull := true, unique := false,
          pkAuto := false, dflt := .nothing }
      , { name := "added_at", ty := "DATETIME", notNull := false, unique := false,
          pkAuto := false, dflt := .nowv } ]
    primaryKey := ["user_id", "contact_id"]
    foreignKeys :=
      [ { column := "user_id", refTable := "users", refColumn := "id" }
      , { column := "contact_id", refTable := "users", refColumn := "id" } ] }

/-- `auth_tokens` table (migration 1 in `main.rs`). -/
def authTokensTable : TableDef :=
  { name := "auth_tokens"
    columns :=
      [ { name := "id", ty := "INTEGER", notNull := false, unique := false,
          pkAuto := true, dflt := .nothing }
      , { name := "user_id", ty := "INTEGER", notNull := true, unique := false,
          pkAuto := false, dflt := .nothing }
      , { name := "access_token", ty := "TEXT", notNull := true, unique := false,
          pkAuto := false, dflt := .nothing }
      , { name := "refresh_token", ty := "TEXT", notNull := false, unique := false,
          pkAuto := false, dflt := .nothing }
      , { name := "expires_at", ty := "DATETIME", notNull := true, unique := false,
          pkAuto := false, dflt := .nothing }
      , { name := "created_at", ty := "DATETIME", notNull := false, unique := false,
          pkAuto := false, dflt := .nowv } ]
    primaryKey := ["id"]
    foreignKeys :=
      [ { column := "user_id", refTable := "users", refColumn := "id" } ] }

/-- `groups` table (migration 2 in `main.rs`). -/
def groupsTable : TableDef :=
  { name := "groups"
    columns :=
      [ { name := "id", ty := "TEXT", notNull := false, unique := false,
          pkAuto := false, dflt := .nothing }
      , { name := "name", ty := "TEXT", notNull := true, unique := false,
          pkAuto := false, dflt := .nothing }
      , { name := "description", ty := "TEXT", notNull := false, unique := false,
          pkAuto := false, dflt := .nothing }
      , { name := "avatar_url", ty := "TEXT", notNull := false, unique := false,
          pkAuto := false, dflt := .nothing }
      , { name := "member_count", ty := "INTEGER", notNull := false, unique := false,
          pkAuto := false, dflt := .intv 0 }
      , { name := "created_by", ty := "INTEGER", notNull := true, unique := false,
          pkAuto := false, dflt := .nothing }
      , { name := "created_at", ty := "DATETIME", notNull := false, unique := false,
          pkAuto := false, dflt := .nowv } ]
    primaryKey := ["id"]
    foreignKeys :=
      [ { column := "created_by", refTable := "users", refColumn := "id" } ] }

/-- `group_members` table (migration 2 in `main.rs`). -/
def groupMembersTable : TableDef :=
  { name := "group_members"
    columns :=
      [ { name := "group_id", ty := "TEXT", notNull := true, unique := false,
          pkAuto := false, dflt := .nothing }
      , { name := "user_id", ty := "INTEGER", notNull := true, unique := false,
          pkAuto := false, dflt := .nothing }
      , { name := "role", ty := "TEXT", notNull := false, unique := false,
          pkAuto := false, dflt := .textv "member" }
      , { name := "joined_at", ty := "DATETIME", notNull := false, unique := false,
          pkAuto := false, dflt := .nowv } ]
    primaryKey := ["group_id", "user_id"]
    foreignKeys :=
      [ { column := "group_id", refTable := "groups", refColumn := "id" }
      , { column := "user_id", refTable := "users", refColumn := "id" } ] }

/-- `group_contacts` table (migration 2 in `main.rs`). -/
def groupContactsTable : TableDef :=
  { name := "group_contacts"
    columns :=
      [ { name := "user_id", ty := "INTEGER", notNull := true, unique := false,
          pkAuto := false, dflt := .nothing }
      , { name := "group_id", ty := "TEXT", notNull := true, unique := false,
          pkAuto := false, dflt := .nothing }
      , { name := "joined_at", ty := "DATETIME", notNull := false, unique := false,
          pkAuto := false, dflt := .nowv } ]
    primaryKey := ["user_id", "group_id"]
    foreignKeys :=
      [ { column := "user_id", refTable := "users", refColumn := "id" }
      , { column := "group_id", refTable := "groups", refColumn := "id" } ] }

/-- `group_messages` table (migration 2 in `main.rs`). -/
def groupMessagesTable : TableDef :=
  { name := "group_messages"
    columns :=
      [ { name := "id", ty := "INTEGER", notNull := false, unique := false,
          pkAuto := true, dflt := .nothing }
      , { name := "group_id", ty := "TEXT", notNull := true, unique := false,
          pkAuto := false, dflt := .nothing }
      , { name := "sender_id", ty := "INTEGER", notNull := true, unique := false,
          pkAuto := false, dflt := .nothing }
      , { name := "content", ty := "TEXT", notNull := true, unique := false,
          pkAuto := false, dflt := .nothing }
      , { name := "message_type", ty := "TEXT", notNull := false, unique := false,
          pkAuto := false, dflt := .textv "text" }
      , { name := "timestamp", ty := "DATETIME", notNull := false, unique := false,
          pkAuto := false, dflt := .nowv } ]
    primaryKey := ["id"]
    foreignKeys :=
      [ { column := "group_id", refTable := "groups", refColumn := "id" }
      , { column := "sender_id", refTable := "users", refColumn := "id" } ] }

/-- Migration version 1, `create_initial_tables`, from `main.rs`: four guarded
`CREATE TABLE IF NOT EXISTS` statements. -/
def migration1 : Migration :=
  { version := 1
    description := "create_initial_tables"
    sql :=
      [ .createTable true usersTable
      , .createTable true messagesTable
      , .createTable true contactsTable
      , .createTable true authTokensTable ]
    kind := .up }

/-- Migration version 2, `create_group_tables`, from `main.rs`: four guarded
`CREATE TABLE IF NOT EXISTS` statements. -/
def migration2 : Migration :=
  { version := 2
    description := "create_group_tables"
    sql :=
      [ .createTable true groupsTable
      , .createTable true groupMembersTable
      , .createTable true groupContactsTable
      , .createTable true groupMessagesTable ]
    kind := .up }

/-- The migration plan registered with `add_migrations("sqlite:cereals.db", migrations)`
in `main.rs`. -/
def migrations : List Migration := [migration1, migration2]

/-! ### The migration engine, modelled from the spec -/

/-- A schema is the list of tables present in the store, in creation order. -/
abbrev Schema := List TableDef

/-- Whether a table named `n` is present in the schema. -/
def hasTable (s : Schema) (n : String) : Bool :=
  s.any (fun t => t.name == n)

/-- A fault oracle: which statements are forced to fail when executed (used to
model a step failing partway).  `noFault` is normal execution. -/
def noFault : SqlStmt → Bool := fun _ => false

/-- Modelled from the spec: execution of one DDL statement against a schema
(the SQL engine inside `tauri_plugin_sql` is not part of this repository).  A
guarded `CREATE TABLE IF NOT EXISTS` is a no-op when the table already exists;
an unguarded `CREATE` of an existing table fails; a faulted statement fails. -/
def execStmt (fault : SqlStmt → Bool) (s : Schema) (stmt : SqlStmt) :
    Except String Schema :=
  if fault stmt then .error "fault"
  else
    match stmt with
    | .createTable ine t =>
        if hasTable s t.name then
          if ine then .ok s else .error ("table exists: " ++ t.name)
        else .ok (s ++ [t])
    | .dropTable n => .ok (s.filter (fun t => t.name != n))

/-- Modelled from the spec: run the statements of one step's body in order,
stopping at the first failure. -/
def runStmts (fault : SqlStmt → Bool) : Schema → List SqlStmt → Except String Schema
  | s, [] => .ok s
  | s, stmt :: rest =>
      match execStmt fault s stmt with
      | .ok s' => runStmts fault s' rest
      | .error e => .error e

/-- The persisted store: schema version marker plus schema. -/
structure Store where
  version : Nat
  schema : Schema
deriving DecidableEq

/-- `StepExecutionFailed{version, cause}` from the spec's error taxonomy. -/
inductive MigError where
  | stepExecutionFailed (version : Nat) (cause : String)
deriving DecidableEq

/-- Result of an `apply` run: the persisted store, the trace of steps that were
executed (in execution order), and the error that aborted the run, if any. -/
structure ApplyResult where
  store : Store
  trace : List Migration
  err : Option MigError
deriving DecidableEq

/-- Modelled from the spec: apply the (already sorted) plan.  Each step whose
version exceeds the current marker is executed as a single atomic unit: on
success the marker advances to the step's version before the next step is
considered; on failure the store is left exactly as it was before the step and
the run aborts with `StepExecutionFailed`.  Steps already reflected in the
marker are skipped. -/
def applyFrom (fault : SqlStmt → Bool) : Store → List Migration → ApplyResult
  | st, [] => ⟨st, [], none⟩
  | st, m :: rest =>
      if st.version < m.version then
        match runStmts fault st.schema m.sql with
        | .ok s' =>
            let r := applyFrom fault ⟨m.version, s'⟩ rest
            ⟨r.store, m :: r.trace, r.err⟩
        | .error c => ⟨st, [], some (.stepExecutionFailed m.version c)⟩
      else applyFrom fault st rest

/-- Sort the plan into ascending version order (the engine executes in
ascending version order regardless of the input ordering of the list). -/
def sortPlan (plan : List Migration) : List Migration :=
  plan.insertionSort (fun a b => a.version ≤ b.version)

instance : IsTotal Migration (fun a b => a.version ≤ b.version) :=
  ⟨fun a b => Nat.le_total a.version b.version⟩

instance : IsTrans Migration (fun a b => a.version ≤ b.version) :=
  ⟨fun _ _ _ hab hbc => Nat.le_trans hab hbc⟩

/-- Modelled from the spec: `apply(current_version, plan)` — sort the plan by
version, then execute every step whose version exceeds the current marker. -/
def apply (fault : SqlStmt → Bool) (st : Store) (plan : List Migration) : ApplyResult :=
  applyFrom fault st (sortPlan plan)

/-- The store produced by bootstrapping an empty store with the shipped plan. -/
def bootStore : Store := (apply noFault ⟨0, []⟩ migrations).store

/-- The names of the tables a migration's body creates. -/
def createdTables (m : Migration) : List String :=
  m.sql.filterMap (fun s =>
    match s with
    | .createTable _ t => some t.name
    | .dropTable _ => none)

/-- A guarded statement: a `CREATE TABLE IF NOT EXISTS` (or a drop, which
cannot fail structurally). -/
def isGuarded : SqlStmt → Bool
  | .createTable g _ => g
  | .dropTable _ => true

/-- A guarded create statement: `CREATE TABLE IF NOT EXISTS` (in particular,
not a drop). -/
def isGuardedCreate : SqlStmt → Bool
  | .createTable g _ => g
  | .dropTable _ => false

/-- A fault oracle that corrupts the creation of `group_contacts`, forcing
step 2 to fail partway through its four table creations. -/
def faultGC : SqlStmt → Bool
  | .createTable _ t => t.name == "group_contacts"
  | .dropTable _ => false

/-- Mirror of the `greet` Tauri command in `main.rs`. -/
def greet (name : String) : String :=
  "Hello, " ++ name ++ "! You've been greeted from Rust!"

/-! ### The storage engine's write path, modelled from the spec -/

/-- A stored SQL value. -/
inductive Value where
  | null
  | intv (n : Int)
  | textv (s : String)
  | boolv (b : Bool)
deriving DecidableEq

/-- A row: bindings from column names to values. -/
abbrev Row := List (String × Value)

/-- The value a row holds for a column (`NULL` when the column is absent). -/
def getCol (r : Row) (c : String) : Value :=
  match r.find? (fun p => p.1 == c) with
  | some p => p.2
  | none => .null

/-- Whether the caller supplied a binding for a column. -/
def rowHas (r : Row) (c : String) : Bool :=
  r.any (fun p => p.1 == c)

/-- The post-bootstrap store: the provisioned schema plus the rows of each
table. -/
structure DB where
  schema : Schema
  data : List (String × List Row)
deriving DecidableEq

/-- The rows currently stored in table `t`. -/
def DB.rows (db : DB) (t : String) : List Row :=
  match db.data.find? (fun p => p.1 == t) with
  | some p => p.2
  | none => []

/-- Replace the rows of table `t`. -/
def DB.setRows (db : DB) (t : String) (rs : List Row) : DB :=
  ⟨db.schema, db.data.map (fun p => if p.1 == t then (p.1, rs) else p)⟩

/-- A freshly provisioned store: every table of the schema, no rows. -/
def DB.fromSchema (s : Schema) : DB :=
  ⟨s, s.map (fun t => (t.name, []))⟩

/-- The empty store produced by bootstrapping with the shipped plan. -/
def bootDB : DB := DB.fromSchema bootStore.schema

/-- `ConstraintViolation{entity, constraint}` from the spec's error taxonomy
(plus a write against an unknown table). -/
inductive WriteError where
  | constraintViolation (entity : String) (constraint : String)
  | unknownTable (name : String)
deriving DecidableEq

/-- Modelled from the spec: the value a `DEFAULT` clause supplies
(`CURRENT_TIMESTAMP` becomes the write's timestamp `now`). -/
def defaultValue (now : String) : ColDefault → Value
  | .nothing => .null
  | .intv n => .intv n
  | .textv s => .textv s
  | .boolv b => .boolv b
  | .nowv => .textv now

/-- Modelled from the spec: the next auto-assigned integer key (one more than
the largest key present). -/
def nextAuto (rows : List Row) (col : String) : Int :=
  1 + rows.foldl (fun acc r =>
    match getCol r col with
    | .intv n => max acc n
    | _ => acc) 0

/-- Modelled from the spec: the storage engine completes the caller's row at
insertion time — a supplied binding is kept, an omitted auto-assigned key is
generated, and every other omitted field receives its declared default. -/
def completeRow (now : String) (auto : Int) (cols : List Column) (given : Row) : Row :=
  cols.map (fun c =>
    (c.name,
      if rowHas given c.name then getCol given c.name
      else if c.pkAuto then .intv auto
      else defaultValue now c.dflt))

/-- Modelled from the spec: `NOT NULL` enforcement on a completed row. -/
def checkNotNull (t : TableDef) (row : Row) : Option WriteError :=
  match t.columns.find? (fun c => c.notNull && (getCol row c.name == Value.null)) with
  | some c => some (.constraintViolation t.name ("not_null_" ++ c.name))
  | none => none

/-- Modelled from the spec: `UNIQUE` enforcement against the stored rows. -/
def checkUnique (t : TableDef) (existing : List Row) (row : Row) : Option WriteError :=
  match t.columns.find? (fun c =>
      c.unique && existing.any (fun r => getCol r c.name == getCol row c.name)) with
  | some c => some (.constraintViolation t.name ("unique_" ++ c.name))
  | none => none

/-- The values a row takes on a table's primary-key columns. -/
def pkTuple (t : TableDef) (row : Row) : List Value :=
  t.primaryKey.map (getCol row)

/-- Modelled from the spec: primary-key uniqueness against the stored rows. -/
def checkPrimaryKey (t : TableDef) (existing : List Row) (row : Row) : Option WriteError :=
  if !t.primaryKey.isEmpty && existing.any (fun r => pkTuple t r == pkTuple t row) then
    some (.constraintViolation t.name "primary_key")
  else none

/-- Modelled from the spec: referential-integrity enforcement — every non-null
foreign-key value must reference an existing parent row. -/
def checkForeignKeys (db : DB) (t : TableDef) (row : Row) : Option WriteError :=
  match t.foreignKeys.find? (fun fk =>
      match getCol row fk.column with
      | .null => false
      | v => !((db.rows fk.refTable).any (fun r => getCol r fk.refColumn == v))) with
  | some fk => some (.constraintViolation t.name ("foreign_key_" ++ fk.column))
  | none => none

/-- Modelled from the spec: a single write statement, transactional (atomic
per statement): the caller's row is completed with defaults, every declared
constraint is checked, and the row is appended only if all checks pass; on a
`ConstraintViolation` the store is unchanged. -/
def insertRow (now : String) (db : DB) (tname : String) (given : Row) :
    Except WriteError DB :=
  match db.schema.find? (fun t => t.name == tname) with
  | none => .error (.unknownTable tname)
  | some t =>
      let existing := db.rows t.name
      let auto :=
        match t.columns.find? (fun c => c.pkAuto) with
        | some c => nextAuto existing c.name
        | none => 0
      let row := completeRow now auto t.columns given
      match checkNotNull t row with
      | some e => .error e
      | none =>
          match checkUnique t existing row with
          | some e => .error e
          | none =>
              match checkPrimaryKey t existing row with
              | some e => .error e
              | none =>
                  match checkForeignKeys db t row with
                  | some e => .error e
                  | none => .ok (db.setRows t.name (existing ++ [row]))

instance {e a : Type} [DecidableEq e] [DecidableEq a] : DecidableEq (Except e a) :=
  fun x y =>
    match x, y with
    | .ok u, .ok v =>
        match decEq u v with
        | isTrue h => isTrue (by rw [h])
        | isFalse h => isFalse (fun hc => h (Except.ok.inj hc))
    | .error u, .error v =>
        match decEq u v with
        | isTrue h => isTrue (by rw [h])
        | isFalse h => isFalse (fun hc => h (Except.error.inj hc))
    | .ok _, .error _ => isFalse (fun hc => Except.noConfusion hc)
    | .error _, .ok _ => isFalse (fun hc => Except.noConfusion hc)

/-- The bootstrapped schema holding a given list of stored user rows and
nothing else. -/
def dbUsers (uRows : List Row) : DB :=
  ⟨[usersTable, messagesTable, contactsTable, authTokensTable,
    groupsTable, groupMembersTable, groupContactsTable, groupMessagesTable],
   [("users", uRows), ("messages", []), ("contacts", []), ("auth_tokens", []),
    ("groups", []), ("group_members", []), ("group_contacts", []),
    ("group_messages", [])]⟩

/-- Stored row for user alice (id 1), used in the write scenarios. -/
def aliceRow : Row :=
  [("id", .intv 1), ("username", .textv "alice"), ("avatar_url", .null),
   ("status", .textv "offline"), ("created_at", .textv "t1")]

/-- Stored row for user bob (id 2), used in the write scenarios. -/
def bobRow : Row :=
  [("id", .intv 2), ("username", .textv "bob"), ("avatar_url", .null),
   ("status", .textv "offline"), ("created_at", .textv "t2")]

/-- The bootstrapped store holding users alice and bob. -/
def dbAB : DB := bootDB.setRows "users" [aliceRow, bobRow]

/-- A stored group row (id "g1", created by alice). -/
def groupRow : Row :=
  [("id", .textv "g1"), ("name", .textv "G"), ("description", .null),
   ("avatar_url", .null), ("member_count", .intv 0), ("created_by", .intv 1),
   ("created_at", .textv "t3")]

/-- The bootstrapped store holding alice, bob and group "g1". -/
def dbABG : DB := dbAB.setRows "groups" [groupRow]

/-- The completed message row produced by inserting `content = "hi"` from
alice to bob at time "t4" with all optional fields omitted. -/
def hiRow : Row :=
  [("id", .intv 1), ("sender_id", .intv 1), ("receiver_id", .intv 2),
   ("content", .textv "hi"), ("message_type", .textv "text"),
   ("timestamp", .textv "t4"), ("is_read", .boolv false)]

/-! ### Theorems -/

/-- A run of guarded statements (and drops) under normal execution never
fails: `CREATE TABLE IF NOT EXISTS` is a no-op when the table exists. -/
theorem runStmts_ok_of_guarded (stmts : List SqlStmt)
    (hg : ∀ s ∈ stmts, isGuarded s = true) (sch : Schema) :
    ∃ sch', runStmts noFault sch stmts = .ok sch' := by
  induction stmts generalizing sch with
  | nil => exact ⟨sch, rfl⟩
  | cons stmt rest ih =>
      have hstmt := hg stmt (List.mem_cons_self _ _)
      have hrest : ∀ s ∈ rest, isGuarded s = true :=
        fun s hs => hg s (List.mem_cons_of_mem _ hs)
      cases stmt with
      | createTable g t =>
          have hgt : g = true := hstmt
          subst hgt
          by_cases hht : hasTable sch t.name = true
          · obtain ⟨sch', h'⟩ := ih hrest sch
            exact ⟨sch', by simp [runStmts, execStmt, noFault, hht, h']⟩
          · obtain ⟨sch', h'⟩ := ih hrest (sch ++ [t])
            exact ⟨sch', by simp [runStmts, execStmt, noFault, hht, h']⟩
      | dropTable n =>
          obtain ⟨sch', h'⟩ := ih hrest (sch.filter (fun t => t.name != n))
          exact ⟨sch', by simp [runStmts, execStmt, noFault, h']⟩

/-- Unfolding `applyFrom` when the head step is pending and its body runs. -/
theorem applyFrom_cons_exec (fault : SqlStmt → Bool) (st : Store) (m : Migration)
    (rest : List Migration) (h : st.version < m.version) (s' : Schema)
    (hr : runStmts fault st.schema m.sql = .ok s') :
    applyFrom fault st (m :: rest) =
      ⟨(applyFrom fault ⟨m.version, s'⟩ rest).store,
       m :: (applyFrom fault ⟨m.version, s'⟩ rest).trace,
       (applyFrom fault ⟨m.version, s'⟩ rest).err⟩ := by
  simp [applyFrom, h, hr]

/-- Unfolding `applyFrom` when the head step is already reflected in the
version marker: the step is skipped entirely. -/
theorem applyFrom_cons_skip (fault : SqlStmt → Bool) (st : Store) (m : Migration)
    (rest : List Migration) (h : ¬ st.version < m.version) :
    applyFrom fault st (m :: rest) = applyFrom fault st rest := by
  simp [applyFrom, h]

/-- Unfolding `applyFrom` when the head step is pending and its body fails:
the store is left exactly as it was before the step (atomic rollback) and the
run aborts. -/
theorem applyFrom_cons_fail (fault : SqlStmt → Bool) (st : Store) (m : Migration)
    (rest : List Migration) (c : String) (h : st.version < m.version)
    (hr : runStmts fault st.schema m.sql = .error c) :
    applyFrom fault st (m :: rest) = ⟨st, [], some (.stepExecutionFailed m.version c)⟩ := by
  simp [applyFrom, h, hr]

/-- Once the marker is at least 2, the shipped (sorted) plan is skipped
entirely. -/
theorem applyFrom_skip_plan (st : Store) (h : 2 ≤ st.version) :
    applyFrom noFault st [migration1, migration2] = ⟨st, [], none⟩ := by
  have h1 : ¬ st.version < migration1.version := show ¬ st.version < 1 by omega
  have h2 : ¬ st.version < migration2.version := show ¬ st.version < 2 by omega
  rw [applyFrom_cons_skip _ _ _ _ h1, applyFrom_cons_skip _ _ _ _ h2]
  rfl

/-- The shipped plan is already in ascending version order. -/
theorem sortPlan_migrations : sortPlan migrations = [migration1, migration2] := by
  decide

/-- The persisted version marker never decreases across an `apply` run,
whatever the fault behaviour of the statements. -/
theorem applyFrom_mono (fault : SqlStmt → Bool) (l : List Migration) :
    ∀ st : Store, st.version ≤ (applyFrom fault st l).store.version := by
  induction l with
  | nil => intro st; exact Nat.le_refl _
  | cons m rest ih =>
      intro st
      by_cases h : st.version < m.version
      · cases hr : runStmts fault st.schema m.sql with
        | ok s' =>
            rw [applyFrom_cons_exec fault st m rest h s' hr]
            exact Nat.le_trans (Nat.le_of_lt h) (ih ⟨m.version, s'⟩)
        | error c =>
            rw [applyFrom_cons_fail fault st m rest c h hr]
      · rw [applyFrom_cons_skip fault st m rest h]
        exact ih st

/-- On a plan in strictly ascending version order whose statements are all
guarded, `applyFrom` executes exactly the steps whose version exceeds the
starting marker and finishes without error. -/
theorem applyFrom_trace_eq :
    ∀ l : List Migration,
      l.Pairwise (fun a b => a.version < b.version) →
      (∀ m ∈ l, ∀ s ∈ m.sql, isGuarded s = true) →
      ∀ (v : Nat) (sch : Schema),
        (applyFrom noFault ⟨v, sch⟩ l).trace =
          l.filter (fun m => decide (v < m.version))
        ∧ (applyFrom noFault ⟨v, sch⟩ l).err = none := by
  intro l
  induction l with
  | nil => intro _ _ v sch; exact ⟨rfl, rfl⟩
  | cons m rest ih =>
      intro hp hg v sch
      have hpm : ∀ b ∈ rest, m.version < b.version := (List.pairwise_cons.mp hp).1
      have hprest : rest.Pairwise (fun a b => a.version < b.version) :=
        (List.pairwise_cons.mp hp).2
      have hgm : ∀ s ∈ m.sql, isGuarded s = true := hg m (List.mem_cons_self _ _)
      have hgrest : ∀ m' ∈ rest, ∀ s ∈ m'.sql, isGuarded s = true :=
        fun m' hm' => hg m' (List.mem_cons_of_mem _ hm')
      by_cases h : v < m.version
      · obtain ⟨s', hr⟩ := runStmts_ok_of_guarded m.sql hgm sch
        rw [applyFrom_cons_exec noFault ⟨v, sch⟩ m rest h s' hr]
        obtain ⟨ht, he⟩ := ih hprest hgrest m.version s'
        have hf2 : rest.filter (fun b => decide (m.version < b.version)) = rest :=
          List.filter_eq_self.mpr (fun b hb => decide_eq_true (hpm b hb))
        have hall : (m :: rest).filter (fun b => decide (v < b.version)) = m :: rest :=
          List.filter_eq_self.mpr (fun b hb => by
            rcases List.mem_cons.mp hb with hbm | hbr
            · subst hbm; exact decide_eq_true h
            · exact decide_eq_true (Nat.lt_trans h (hpm b hbr)))
        constructor
        · show m :: (applyFrom noFault ⟨m.version, s'⟩ rest).trace =
            (m :: rest).filter (fun b => decide (v < b.version))
          rw [ht, hf2, hall]
        · exact he
      · rw [applyFrom_cons_skip noFault ⟨v, sch⟩ m rest h]
        obtain ⟨ht, he⟩ := ih hprest hgrest v sch
        have hskip : (m :: rest).filter (fun b => decide (v < b.version)) =
            rest.filter (fun b => decide (v < b.version)) := by
          simp [List.filter_cons, h]
        exact ⟨by rw [hskip]; exact ht, he⟩

/-- C1: applying the full two-step migration plan to an empty store yields
persisted schema version 2 and exactly the eight tables users, messages,
contacts, auth_tokens, groups, group_members, group_contacts, group_messages —
no more and no fewer. -/
theorem bootstrap_yields_version2_and_eight_tables :
    (apply noFault ⟨0, []⟩ migrations).err = none
    ∧ (apply noFault ⟨0, []⟩ migrations).store.version = 2
    ∧ (apply noFault ⟨0, []⟩ migrations).store.schema.map (fun t => t.name) =
        ["users", "messages", "contacts", "auth_tokens",
         "groups", "group_members", "group_contacts", "group_messages"] := by
  decide

/-- C2: `apply` is idempotent — for every store, applying the shipped plan and
then applying it again (with the current version equal to the result) performs
zero structural changes (empty execution trace), leaves the store unchanged,
and reports no error. -/
theorem reapply_is_noop (st : Store) :
    apply noFault (apply noFault st migrations).store migrations =
      ⟨(apply noFault st migrations).store, [], none⟩ := by
  obtain ⟨v, sch⟩ := st
  have hg1 : ∀ s ∈ migration1.sql, isGuarded s = true := by decide
  have hg2 : ∀ s ∈ migration2.sql, isGuarded s = true := by decide
  by_cases h1 : v < 1
  · obtain ⟨s1, hr1⟩ := runStmts_ok_of_guarded migration1.sql hg1 sch
    obtain ⟨s2, hr2⟩ := runStmts_ok_of_guarded migration2.sql hg2 s1
    have hfst : (apply noFault ⟨v, sch⟩ migrations).store = ⟨2, s2⟩ := by
      unfold apply
      rw [sortPlan_migrations]
      rw [applyFrom_cons_exec noFault ⟨v, sch⟩ migration1 [migration2] h1 s1 hr1]
      rw [applyFrom_cons_exec noFault ⟨migration1.version, s1⟩ migration2 []
            (show (1 : Nat) < 2 by omega) s2 hr2]
      rfl
    rw [hfst]
    unfold apply
    rw [sortPlan_migrations]
    exact applyFrom_skip_plan ⟨2, s2⟩ (Nat.le_refl 2)
  · by_cases h2 : v < 2
    · obtain ⟨s2, hr2⟩ := runStmts_ok_of_guarded migration2.sql hg2 sch
      have hfst : (apply noFault ⟨v, sch⟩ migrations).store = ⟨2, s2⟩ := by
        unfold apply
        rw [sortPlan_migrations]
        rw [applyFrom_cons_skip noFault ⟨v, sch⟩ migration1 [migration2] h1]
        rw [applyFrom_cons_exec noFault ⟨v, sch⟩ migration2 [] h2 s2 hr2]
        rfl
      rw [hfst]
      unfold apply
      rw [sortPlan_migrations]
      exact applyFrom_skip_plan ⟨2, s2⟩ (Nat.le_refl 2)
    · have hfst : (apply noFault ⟨v, sch⟩ migrations).store = ⟨v, sch⟩ := by
        unfold apply
        rw [sortPlan_migrations]
        rw [applyFrom_skip_plan ⟨v, sch⟩ (show 2 ≤ v by omega)]
      rw [hfst]
      unfold apply
      rw [sortPlan_migrations]
      exact applyFrom_skip_plan ⟨v, sch⟩ (show 2 ≤ v by omega)

/-- C3: partial-failure atomicity.  Forcing one of step 2's four table
creations to fail leaves the persisted marker at 1 with exactly step 1's four
tables (no half-created step-2 state), reports `StepExecutionFailed` for
version 2, and a subsequent clean `apply` retries exactly step 2 and completes
to version 2 with the eight tables.  In general a single step either fully
succeeds with the marker advanced to its version, or fails (or is skipped)
with the store exactly as before. -/
theorem step2_partial_failure_atomic :
    ((apply faultGC ⟨0, []⟩ migrations).store.version = 1
    ∧ (apply faultGC ⟨0, []⟩ migrations).store.schema.map (fun t => t.name) =
        ["users", "messages", "contacts", "auth_tokens"]
    ∧ (apply faultGC ⟨0, []⟩ migrations).err =
        some (.stepExecutionFailed 2 "fault")
    ∧ (apply faultGC ⟨0, []⟩ migrations).trace = [migration1]
    ∧ apply noFault (apply faultGC ⟨0, []⟩ migrations).store migrations =
        ⟨⟨2, [usersTable, messagesTable, contactsTable, authTokensTable,
              groupsTable, groupMembersTable, groupContactsTable, groupMessagesTable]⟩,
         [migration2], none⟩)
    ∧ ∀ (fault : SqlStmt → Bool) (st : Store) (m : Migration),
        ((applyFrom fault st [m]).err = none
          ∧ ((applyFrom fault st [m]).store.version = m.version
              ∨ (applyFrom fault st [m]).store = st))
        ∨ ((applyFrom fault st [m]).err ≠ none ∧ (applyFrom fault st [m]).store = st) := by
  refine ⟨by decide, ?_⟩
  intro fault st m
  by_cases h : st.version < m.version
  · cases hr : runStmts fault st.schema m.sql with
    | ok s' =>
        rw [applyFrom_cons_exec fault st m [] h s' hr]
        exact Or.inl ⟨rfl, Or.inl rfl⟩
    | error c =>
        rw [applyFrom_cons_fail fault st m [] c h hr]
        exact Or.inr ⟨by simp, rfl⟩
  · rw [applyFrom_cons_skip fault st m [] h]
    exact Or.inl ⟨rfl, Or.inr rfl⟩

/-- C6: the shipped plan contains exactly two steps — version 1 creates the
users / messages / contacts / auth_tokens tables and version 2 the groups /
group_members / group_contacts / group_messages tables, with the columns and
foreign keys of the data model; every statement in both bodies is a guarded
`CREATE TABLE IF NOT EXISTS` (in particular no step drops a table), and a
guarded create really is a no-op on a schema that already has the table. -/
theorem plan_is_two_guarded_create_steps :
    (migrations.length = 2
    ∧ migrations.map (fun m => m.version) = [1, 2]
    ∧ migrations.map (fun m => m.description) =
        ["create_initial_tables", "create_group_tables"]
    ∧ createdTables migration1 = ["users", "messages", "contacts", "auth_tokens"]
    ∧ createdTables migration2 =
        ["groups", "group_members", "group_contacts", "group_messages"]
    ∧ migrations.all (fun m => m.sql.all isGuardedCreate) = true
    ∧ usersTable.columns.map (fun c => c.name) =
        ["id", "username", "avatar_url", "status", "created_at"]
    ∧ usersTable.foreignKeys = []
    ∧ messagesTable.columns.map (fun c => c.name) =
        ["id", "sender_id", "receiver_id", "content", "message_type",
         "timestamp", "is_read"]
    ∧ messagesTable.foreignKeys =
        [⟨"sender_id", "users", "id"⟩, ⟨"receiver_id", "users", "id"⟩]
    ∧ contactsTable.columns.map (fun c => c.name) =
        ["user_id", "contact_id", "added_at"]
    ∧ contactsTable.foreignKeys =
        [⟨"user_id", "users", "id"⟩, ⟨"contact_id", "users", "id"⟩]
    ∧ authTokensTable.columns.map (fun c => c.name) =
        ["id", "user_id", "access_token", "refresh_token", "expires_at",
         "created_at"]
    ∧ authTokensTable.foreignKeys = [⟨"user_id", "users", "id"⟩]
    ∧ groupsTable.columns.map (fun c => c.name) =
        ["id", "name", "description", "avatar_url", "member_count",
         "created_by", "created_at"]
    ∧ groupsTable.foreignKeys = [⟨"created_by", "users", "id"⟩]
    ∧ groupMembersTable.columns.map (fun c => c.name) =
        ["group_id", "user_id", "role", "joined_at"]
    ∧ groupMembersTable.foreignKeys =
        [⟨"group_id", "groups", "id"⟩, ⟨"user_id", "users", "id"⟩]
    ∧ groupContactsTable.columns.map (fun c => c.name) =
        ["user_id", "group_id", "joined_at"]
    ∧ groupContactsTable.foreignKeys =
        [⟨"user_id", "users", "id"⟩, ⟨"group_id", "groups", "id"⟩]
    ∧ groupMessagesTable.columns.map (fun c => c.name) =
        ["id", "group_id", "sender_id", "content", "message_type", "timestamp"]
    ∧ groupMessagesTable.foreignKeys =
        [⟨"group_id", "groups", "id"⟩, ⟨"sender_id", "users", "id"⟩])
    ∧ ∀ (sch : Schema) (t : TableDef), hasTable sch t.name = true →
        execStmt noFault sch (.createTable true t) = .ok sch := by
  refine ⟨by decide, ?_⟩
  intro sch t h
  simp [execStmt, noFault, h]

/-- Witness for C6: the no-op-if-exists guarantee at a concrete input. -/
theorem plan_is_two_guarded_create_steps_witness :
    hasTable [usersTable] usersTable.name = true
    ∧ execStmt noFault [usersTable] (.createTable true usersTable) = .ok [usersTable] :=
  ⟨by decide,
   plan_is_two_guarded_create_steps.2 [usersTable] usersTable (by decide)⟩

/-- C5: for every starting version, `apply` executes exactly the steps whose
version exceeds `current_version`, in ascending version order regardless of
the plan list's input ordering (the trace equals the ascending-sorted plan
filtered to pending versions, and is itself strictly ascending), finishing
without error; and the persisted version marker is monotonically
non-decreasing across every `apply` run, faulty or not. -/
theorem apply_executes_exactly_pending_steps (st : Store) (plan : List Migration)
    (hnd : (plan.map (fun m => m.version)).Nodup)
    (hg : ∀ m ∈ plan, ∀ s ∈ m.sql, isGuarded s = true) :
    (apply noFault st plan).trace =
      (sortPlan plan).filter (fun m => decide (st.version < m.version))
    ∧ (apply noFault st plan).trace.Pairwise (fun a b => a.version < b.version)
    ∧ (apply noFault st plan).err = none
    ∧ ∀ fault : SqlStmt → Bool, st.version ≤ (apply fault st plan).store.version := by
  have hperm : List.Perm (sortPlan plan) plan := List.perm_insertionSort _ plan
  have hsorted : (sortPlan plan).Pairwise (fun a b => a.version ≤ b.version) :=
    List.sorted_insertionSort _ plan
  have hnd' : ((sortPlan plan).map (fun m => m.version)).Nodup :=
    ((hperm.map _).nodup_iff).mpr hnd
  have hne : (sortPlan plan).Pairwise (fun a b => a.version ≠ b.version) :=
    List.pairwise_map.mp hnd'
  have hlt : (sortPlan plan).Pairwise (fun a b => a.version < b.version) :=
    (hsorted.and hne).imp (fun hab => lt_of_le_of_ne hab.1 hab.2)
  have hg' : ∀ m ∈ sortPlan plan, ∀ s ∈ m.sql, isGuarded s = true :=
    fun m hm => hg m (hperm.mem_iff.mp hm)
  obtain ⟨ht, he⟩ := applyFrom_trace_eq (sortPlan plan) hlt hg' st.version st.schema
  have ht' : (apply noFault st plan).trace =
      (sortPlan plan).filter (fun m => decide (st.version < m.version)) := ht
  have he' : (apply noFault st plan).err = none := he
  refine ⟨ht', ?_, he', fun fault => applyFrom_mono fault (sortPlan plan) st⟩
  rw [ht']
  exact hlt.filter _

/-- Witness for C5: the hypotheses and the trace equation at the shipped plan
from a fresh store. -/
theorem apply_executes_exactly_pending_steps_witness :
    ((migrations.map (fun m => m.version)).Nodup
      ∧ ∀ m ∈ migrations, ∀ s ∈ m.sql, isGuarded s = true)
    ∧ (apply noFault ⟨0, []⟩ migrations).trace =
        (sortPlan migrations).filter
          (fun m => decide ((⟨0, []⟩ : Store).version < m.version)) :=
  ⟨⟨by decide, by decide⟩,
   (apply_executes_exactly_pending_steps ⟨0, []⟩ migrations (by decide) (by decide)).1⟩

/-- C9: `greet` returns exactly `"Hello, " ++ name ++ "! You've been greeted
from Rust!"` for every input, and is deterministic (it is a pure function of
its argument). -/
theorem greet_spec (name : String) :
    greet name = "Hello, " ++ name ++ "! You've been greeted from Rust!"
    ∧ greet name = greet name :=
  ⟨rfl, rfl⟩

/-- C4: referential integrity on writes after bootstrap.  In the bootstrapped
store holding users alice (id 1) and bob (id 2), inserting a message whose
sender_id is any id other than 1 or 2 — i.e. one that does not exist in
users — fails with a `ConstraintViolation` on the sender foreign key (the
failed write returns an error, so the store is unchanged), while inserting a
message with the valid pair (sender 1, receiver 2) succeeds. -/
theorem message_referential_integrity :
    (∀ (sid rid : Int) (content now : String), sid ≠ 1 → sid ≠ 2 →
      insertRow now dbAB "messages"
          [("sender_id", .intv sid), ("receiver_id", .intv rid),
           ("content", .textv content)] =
        .error (.constraintViolation "messages" "foreign_key_sender_id"))
    ∧ (dbAB.rows "users").map (fun r => getCol r "id") = [.intv 1, .intv 2]
    ∧ insertRow "t4" dbAB "messages"
        [("sender_id", .intv 1), ("receiver_id", .intv 2), ("content", .textv "hi")] =
      .ok (dbAB.setRows "messages" [hiRow]) := by
  refine ⟨?_, by decide, by decide⟩
  intro sid rid content now h1 h2
  have e1 : (Value.intv 1 == Value.intv sid) = false := by
    simp only [beq_eq_false_iff_ne, ne_eq, Value.intv.injEq]
    exact fun h => h1 h.symm
  have e2 : (Value.intv 2 == Value.intv sid) = false := by
    simp only [beq_eq_false_iff_ne, ne_eq, Value.intv.injEq]
    exact fun h => h2 h.symm
  have n1 : (Value.intv sid == Value.null) = false := by
    simp only [beq_eq_false_iff_ne, ne_eq]
    simp
  have n2 : (Value.intv rid == Value.null) = false := by
    simp only [beq_eq_false_iff_ne, ne_eq]
    simp
  have n3 : (Value.textv content == Value.null) = false := by
    simp only [beq_eq_false_iff_ne, ne_eq]
    simp
  have hdb : dbAB = dbUsers [aliceRow, bobRow] := by decide
  rw [hdb]
  simp [insertRow, dbUsers, DB.rows, DB.setRows, usersTable, messagesTable,
    contactsTable, authTokensTable, groupsTable, groupMembersTable,
    groupContactsTable, groupMessagesTable, completeRow, getCol, rowHas,
    nextAuto, defaultValue, checkNotNull, checkUnique, checkPrimaryKey,
    pkTuple, checkForeignKeys, List.find?, List.any, aliceRow, bobRow, e1, e2,
    n1, n2, n3]

/-- Witness for C4: a concrete nonexistent sender id (5) is rejected. -/
theorem message_referential_integrity_witness :
    ((5 : Int) ≠ 1 ∧ (5 : Int) ≠ 2)
    ∧ insertRow "t0" dbAB "messages"
        [("sender_id", .intv 5), ("receiver_id", .intv 2), ("content", .textv "hi")] =
      .error (.constraintViolation "messages" "foreign_key_sender_id") :=
  ⟨⟨by decide, by decide⟩,
   message_referential_integrity.1 5 2 "hi" "t0" (by decide) (by decide)⟩

/-- C7: username uniqueness.  Inserting a user with any username into the
fresh bootstrapped store succeeds (stored with id 1 and default status), and a
second insertion with the same username fails with
`ConstraintViolation{users, unique_username}`, the store retaining only the
first row. -/
theorem username_unique_enforced (name now1 now2 : String) :
    insertRow now1 bootDB "users" [("username", .textv name)] =
      .ok (bootDB.setRows "users"
        [[("id", .intv 1), ("username", .textv name), ("avatar_url", .null),
          ("status", .textv "offline"), ("created_at", .textv now1)]])
    ∧ bootDB.setRows "users"
        [[("id", .intv 1), ("username", .textv name), ("avatar_url", .null),
          ("status", .textv "offline"), ("created_at", .textv now1)]] =
      dbUsers
        [[("id", .intv 1), ("username", .textv name), ("avatar_url", .null),
          ("status", .textv "offline"), ("created_at", .textv now1)]]
    ∧ insertRow now2
        (dbUsers
          [[("id", .intv 1), ("username", .textv name), ("avatar_url", .null),
            ("status", .textv "offline"), ("created_at", .textv now1)]])
        "users" [("username", .textv name)] =
      .error (.constraintViolation "users" "unique_username")
    ∧ (dbUsers
        [[("id", .intv 1), ("username", .textv name), ("avatar_url", .null),
          ("status", .textv "offline"), ("created_at", .textv now1)]]).rows "users" =
      [[("id", .intv 1), ("username", .textv name), ("avatar_url", .null),
        ("status", .textv "offline"), ("created_at", .textv now1)]] := by
  refine ⟨rfl, rfl, ?_, rfl⟩
  simp [insertRow, dbUsers, DB.rows, DB.setRows, usersTable, messagesTable,
    contactsTable, authTokensTable, groupsTable, groupMembersTable,
    groupContactsTable, groupMessagesTable, completeRow, getCol, rowHas,
    nextAuto, defaultValue, checkNotNull, checkUnique, checkPrimaryKey,
    pkTuple, checkForeignKeys]

/-- C8: defaults are applied by the storage engine at insertion time when the
caller omits the field — a user inserted with only a username gets
`status = "offline"`, and a message inserted without is_read / message_type
gets `is_read = false` and `message_type = "text"`. -/
theorem defaults_applied_on_insert (name now1 : String) :
    insertRow now1 bootDB "users" [("username", .textv name)] =
      .ok (bootDB.setRows "users"
        [[("id", .intv 1), ("username", .textv name), ("avatar_url", .null),
          ("status", .textv "offline"), ("created_at", .textv now1)]])
    ∧ rowHas [("username", Value.textv name)] "status" = false
    ∧ getCol [("id", .intv 1), ("username", .textv name), ("avatar_url", .null),
        ("status", .textv "offline"), ("created_at", .textv now1)] "status" =
      .textv "offline"
    ∧ insertRow "t4" dbAB "messages"
        [("sender_id", .intv 1), ("receiver_id", .intv 2), ("content", .textv "hi")] =
      .ok (dbAB.setRows "messages" [hiRow])
    ∧ rowHas [("sender_id", Value.intv 1), ("receiver_id", Value.intv 2),
        ("content", Value.textv "hi")] "is_read" = false
    ∧ rowHas [("sender_id", Value.intv 1), ("receiver_id", Value.intv 2),
        ("content", Value.textv "hi")] "message_type" = false
    ∧ getCol hiRow "is_read" = .boolv false
    ∧ getCol hiRow "message_type" = .textv "text" :=
  ⟨rfl, rfl, rfl, by decide, by decide, by decide, by decide, by decide⟩

/-- C10: the data model's enumerated value sets are not structurally
enforced — for every string `s`, inserting a users row with `status = s`, a
messages row with `message_type = s`, and a group_members row with `role = s`
all succeed, because the schema declares these columns as plain TEXT with
only a default value and no restriction on their contents. -/
theorem enum_values_not_enforced (s : String) :
    (insertRow "t6" dbABG "users"
        [("username", .textv "carol"), ("status", .textv s)]).isOk = true
    ∧ (insertRow "t6" dbABG "messages"
        [("sender_id", .intv 1), ("receiver_id", .intv 2), ("content", .textv "hi"),
         ("message_type", .textv s)]).isOk = true
    ∧ (insertRow "t6" dbABG "group_members"
        [("group_id", .textv "g1"), ("user_id", .intv 1), ("role", .textv s)]).isOk = true
    ∧ usersTable.columns.find? (fun c => c.name == "status") =
        some ⟨"status", "TEXT", false, false, false, .textv "offline"⟩
    ∧ messagesTable.columns.find? (fun c => c.name == "message_type") =
        some ⟨"message_type", "TEXT", false, false, false, .textv "text"⟩
    ∧ groupMembersTable.columns.find? (fun c => c.name == "role") =
        some ⟨"role", "TEXT", false, false, false, .textv "member"⟩ :=
  ⟨rfl, rfl, rfl, by decide, by decide, by decide⟩

end Cereals
